import Mathlib

/-!
Verification development for the hyperpeer client library
(`hyperpeer/hyperpeer.py`): a shallow embedding of the `Peer`
connection-lifecycle state machine, its signaling-message handling, its
WebRTC negotiation protocol and its background-task supervision, together
with theorems settling the specification claims.

Modelling conventions:
* Python's mutable `Peer` object becomes an explicit `Peer` record; every
  method becomes a pure function returning the updated record together
  with an `Except Err _` describing a normal return or a raised exception.
* The websocket inbox is an explicit list of `InEvent`s (each message
  carries the delay, in time units, after which it arrives; `asyncio.wait_for`
  with a timeout raises when the delay exceeds the timeout).
* asyncio tasks are values of type `AsyncTask`: either already finished with a
  `FinResult`, or still running, tagged with the `FinResult` the task would
  finish with if it were cancelled now.
* External engines (aiortc `RTCPeerConnection`, aioice SDP parsing, media
  players) are modelled at their interface boundary only: SDP strings are
  opaque, `Candidate.from_sdp` is an arbitrary function parameter, and the
  peer connection records the candidates handed to `addIceCandidate`.
-/

/-- The states of a `Peer` instance (`PeerState` enum in the source). -/
inductive PeerState
  | STARTING
  | ONLINE
  | LISTENING
  | CONNECTING
  | CONNECTED
  | DISCONNECTING
  | CLOSING
  | CLOSED
deriving DecidableEq, Repr

/-- How an asyncio task ends: normal return, cancellation, or an uncaught
non-cancellation exception with message `m`. -/
inductive FinResult
  | ok
  | cancelled
  | fault (m : String)
deriving DecidableEq, Repr

/-- An asyncio task: already finished, or still running.  A running task is
tagged with the outcome it would produce if cancelled now (`.cancelled` for a
task that lets `CancelledError` propagate, `.ok` for one that catches it and
returns, `.fault m` for one that raises `m` during cancellation). -/
inductive AsyncTask
  | finished (r : FinResult)
  | running (onCancel : FinResult)
deriving DecidableEq, Repr

/-- `true` exactly for a task that has not finished (`Task.done()` is false). -/
def taskRunning : AsyncTask → Bool
  | .finished _ => false
  | .running _ => true

/-- `true` when an optional task slot holds no still-running task. -/
def optIdle : Option AsyncTask → Bool
  | none => true
  | some t => !taskRunning t

/-- Python exceptions raised by the embedded code. -/
inductive Err
  | exn (msg : String)
  | typeError (msg : String)
  | keyError (key : String)
  | cancelledError
  | blocked
deriving DecidableEq, Repr

/-- JSON values carried over the signaling channel and data channel. -/
inductive Json
  | null
  | bool (b : Bool)
  | num (n : Int)
  | str (s : String)
  | arr (xs : List Json)
  | obj (kvs : List (String × Json))

/-- `true` exactly for the JSON null value (Python `None`). -/
def Json.isNull : Json → Bool
  | .null => true
  | _ => false

/-- One entry of the server's `peers` response: `{id, type, busy}`. -/
structure PeerInfo where
  id : String
  type : String
  busy : Bool
deriving DecidableEq, Repr

/-- Inbound signaling messages (well-formed JSON objects), classified by the
keys the source inspects: the first six carry a `type` key, `candidate`
carries a `candidate` key and no `type` key, and `untyped` stands for any
JSON object with neither key.  A `status`-typed message may lack its
`status` key (`none`): accessing `signal['status']` then raises `KeyError`. -/
inductive Signal
  | status (status : Option String) (remotePeerId : Option String)
  | peers (ps : List PeerInfo)
  | errorMsg (message : String)
  | offer (sdp : String)
  | answer (sdp : String)
  | otherTyped (type : String)
  | candidate (candidate : String) (sdpMLineIndex : Int) (sdpMid : String)
  | untyped

/-- A raw websocket text frame: either valid JSON (already classified) or a
frame on which `json.loads` fails. -/
inductive RawMsg
  | json (s : Signal)
  | invalid

/-- One event seen by a websocket receive: a message arriving `t` time units
after the receive started, or the connection closing after `t` time units. -/
inductive InEvent
  | msg (t : ℚ) (raw : RawMsg)
  | closed (t : ℚ)

/-- Outbound signaling messages produced by `Peer._send` callers. -/
inductive OutMsg
  | listPeers
  | pair (remotePeerId : String)
  | ready
  | sdp (type : String) (sdp : String)
deriving DecidableEq, Repr

/-- The aioice `Candidate` produced by `Candidate.from_sdp`. -/
structure AioiceCand where
  component : Nat
  foundation : String
  host : String
  port : Nat
  priority : Nat
  transport : String
  related_address : Option String
  related_port : Option Nat
  tcptype : Option String
  type : String
deriving DecidableEq, Repr

/-- The aiortc `RTCIceCandidate` handed to `RTCPeerConnection.addIceCandidate`. -/
structure RTCIceCandidate where
  component : Nat
  foundation : String
  ip : String
  port : Nat
  priority : Nat
  protocol : String
  relatedAddress : Option String
  relatedPort : Option Nat
  tcpType : Option String
  type : String
  sdpMLineIndex : Int
  sdpMid : String
deriving DecidableEq, Repr

/-- A raw data-channel frame: valid JSON or a frame `json.loads` rejects. -/
inductive DataRaw
  | json (d : Json)
  | invalid

/-- The `Peer` object's fields (signaling socket, peer connection, data
channel, the three supervised background-task slots, the single-slot data
inbox, handler list, plus observation logs of outbound traffic and of the
candidates handed to the engine). `ws`/`pc`/`datachannel` are `none` when
the corresponding Python attribute is `None`, and otherwise carry their
open/ready flag. -/
structure Peer where
  url : String
  id : String
  readyState : PeerState
  ws : Option Bool
  pc : Option Bool
  datachannel : Option Bool
  handle_candidates_task : Option AsyncTask
  track_consumer_task : Option AsyncTask
  remote_track_monitor_task : Option AsyncTask
  data : Json
  data_handlers : List String
  handlerCalls : List (String × Json)
  sent : List OutMsg
  dcSent : List Json
  pc_candidates : List RTCIceCandidate
  localDescription : Option (String × String)
  remoteDescription : Option (String × String)
  listenersAdded : Bool
  frame_consumer_feeder : Bool

/-- Python truthiness of an optional string (`None` and `''` are falsy). -/
def truthy : Option String → Bool
  | none => false
  | some s => s ≠ ""

/-- Python `str(id)`: `None` prints as `"None"`. -/
def pyStr : Option String → String
  | none => "None"
  | some s => s

/-- The connection URL built by `Peer.__init__`: start from
`serverAddress + '/' + peer_type`, append `'/' + id` if `id` is truthy, and
append `'/' + key` if `key` is truthy. -/
def mkUrl (serverAddress peer_type : String) (id key : Option String) : String :=
  let u := serverAddress ++ "/" ++ peer_type
  let u := if truthy id then u ++ "/" ++ id.getD "" else u
  if truthy key then u ++ "/" ++ key.getD "" else u

/-- `Peer.__init__` restricted to the fields the state machine uses (media
source validation and frame generator/consumer adapters are external). -/
def peer_init (serverAddress peer_type : String) (id key : Option String)
    (hasFrameConsumer : Bool) : Peer :=
  { url := mkUrl serverAddress peer_type id key
    id := pyStr id
    readyState := .STARTING
    ws := none
    pc := none
    datachannel := none
    handle_candidates_task := none
    track_consumer_task := none
    remote_track_monitor_task := none
    data := .null
    data_handlers := []
    handlerCalls := []
    sent := []
    dcSent := []
    pc_candidates := []
    localDescription := none
    remoteDescription := none
    listenersAdded := false
    frame_consumer_feeder := hasFrameConsumer }

/-- `Peer._set_readyState` (the log line is not modelled). -/
def set_readyState (p : Peer) (s : PeerState) : Peer :=
  { p with readyState := s }

/-- Append an outbound signaling message (`Peer._send` on an open socket). -/
def pushSent (p : Peer) (m : OutMsg) : Peer :=
  { p with sent := p.sent ++ [m] }

/-- Result of `Peer._cancel_task`: the task's state afterwards, whether a
real (non-cancellation) error was logged, and the exception the call itself
raised, if any. -/
structure CancelRes where
  task : AsyncTask
  logged : Bool
  raised : Option Err
deriving DecidableEq, Repr

/-- `Peer._cancel_task`.  For a finished task it calls `task.exception()`:
per asyncio semantics this *raises* `CancelledError` when the task was
cancelled, returns `None` when the task returned normally, and returns the
exception when the task faulted (then the `isinstance` guard logs it).  For
a running task it calls `task.cancel()` and awaits it, catching only
`CancelledError`; a fault raised while the task unwinds propagates. -/
def cancel_task : AsyncTask → CancelRes
  | .finished .ok => ⟨.finished .ok, false, none⟩
  | .finished .cancelled => ⟨.finished .cancelled, false, some .cancelledError⟩
  | .finished (.fault m) => ⟨.finished (.fault m), true, none⟩
  | .running .ok => ⟨.finished .ok, false, none⟩
  | .running .cancelled => ⟨.finished .cancelled, false, none⟩
  | .running (.fault m) => ⟨.finished (.fault m), false, some (.exn m)⟩

/-- `if self._task: await self._cancel_task(self._task)` on one task slot:
returns the slot's new contents and the exception raised, if any. -/
def cancelOptTask : Option AsyncTask → Option AsyncTask × Option Err
  | none => (none, none)
  | some t => (some (cancel_task t).task, (cancel_task t).raised)

/-- Close the websocket, if any, and enter `CLOSED`: the tail of
`Peer.close` after its guards (also the effect of the `close` call made
from inside `disconnect`, where the state is already `DISCONNECTING`). -/
def closeBody (p : Peer) : Peer :=
  set_readyState { p with ws := p.ws.map (fun _ => false) } .CLOSED

/-- The task-cancellation phase of `Peer.disconnect`: cancel-and-await the
track-consumer, candidate-relay and remote-track-monitor tasks in that
order; an exception raised by a cancellation aborts the phase at once,
leaving the remaining slots untouched. -/
def cancel_all_tasks (p : Peer) : Peer × Option Err :=
  match cancelOptTask p.track_consumer_task with
  | (t1, some e) => ({ p with track_consumer_task := t1 }, some e)
  | (t1, none) =>
    let p2 := { p with track_consumer_task := t1 }
    match cancelOptTask p2.handle_candidates_task with
    | (t2, some e) => ({ p2 with handle_candidates_task := t2 }, some e)
    | (t2, none) =>
      let p3 := { p2 with handle_candidates_task := t2 }
      match cancelOptTask p3.remote_track_monitor_task with
      | (t3, e) => ({ p3 with remote_track_monitor_task := t3 }, e)

/-- The closing phase of `Peer.disconnect`: close the peer connection, then
return to `ONLINE` if the websocket is still open and otherwise run the
`close` path; a supplied error cause is escalated by closing entirely and
re-raising it.  Accessing a missing `_pc`/`_ws` attribute raises. -/
def pc_ws_close (error : Option String) (p : Peer) : Peer × Except Err Unit :=
  match p.pc with
  | none => (p, .error (.exn "AttributeError: _pc is None"))
  | some _ =>
    let p5 : Peer := { p with pc := some false }
    match p5.ws with
    | none => (p5, .error (.exn "AttributeError: _ws is None"))
    | some wsOpen =>
      let p6 := if wsOpen then set_readyState p5 .ONLINE else closeBody p5
      match error with
      | none => (p6, .ok ())
      | some msg =>
          if p6.readyState = PeerState.CLOSED then (p6, .error (.exn msg))
          else (closeBody p6, .error (.exn msg))

/-- `Peer.disconnect(error)`.  No-op unless `CONNECTING` or `CONNECTED`;
otherwise: enter `DISCONNECTING`, run the task-cancellation phase
(`cancel_all_tasks`) and then the closing phase (`pc_ws_close`). -/
def disconnect (error : Option String) (p : Peer) : Peer × Except Err Unit :=
  if p.readyState = PeerState.CONNECTING ∨ p.readyState = PeerState.CONNECTED then
    match cancel_all_tasks (set_readyState p .DISCONNECTING) with
    | (p2, some e) => (p2, .error e)
    | (p2, none) => pc_ws_close error p2
  else (p, .ok ())

/-- `Peer.close()`: no-op when already `CLOSED`; runs the full disconnect
protocol first when a session is active (`CONNECTING`/`CONNECTED`), then
closes the websocket (if any) and enters `CLOSED`. -/
def close (p : Peer) : Peer × Except Err Unit :=
  if p.readyState = PeerState.CLOSED then (p, .ok ())
  else
    match (if p.readyState = PeerState.CONNECTING ∨ p.readyState = PeerState.CONNECTED
           then disconnect none p else (p, .ok ())) with
    | (q, .ok _) => (closeBody q, .ok ())
    | (q, .error e) => (q, .error e)

/-- `Peer.open()`: no state validation; on a successful websocket connect the
peer enters `ONLINE` from whatever state it was in. -/
def openPeer (connectOk : Bool) (p : Peer) : Peer × Except Err Unit :=
  if connectOk then ({ p with ws := some true, readyState := .ONLINE }, .ok ())
  else (p, .error (.exn "websocket connect failed"))

/-- `true` when `asyncio.wait_for`'s deadline `limit` elapses before the
awaited event, due after `t` time units, completes. -/
def tmExceeds : Option ℚ → ℚ → Bool
  | none, _ => false
  | some limit, t => limit < t

/-- The outcome of one `Peer._get_signal(timeout)` receive on one event:
a timeout maps to `Exception('Server not responding!')`, a closed connection
to a distinct closed-connection exception, an invalid JSON frame to
`TypeError`, and a valid frame to the parsed signal. -/
def readEvent (timeout : Option ℚ) : InEvent → Except Err Signal
  | .msg t raw =>
      if tmExceeds timeout t then .error (.exn "Server not responding!")
      else match raw with
        | .invalid => .error (.typeError "Received an invalid json message signal")
        | .json sig => .ok sig
  | .closed t =>
      if tmExceeds timeout t then .error (.exn "Server not responding!")
      else .error (.exn "Websocket connection closed while waiting for a signal")

/-- `Peer._get_signal(timeout)` over the inbox: consumes the next event; an
empty inbox means the receive never completes (`.blocked` stands for an
await that never returns; with a timeout armed it times out instead). -/
def get_signal (timeout : Option ℚ) (evs : List InEvent) :
    List InEvent × Except Err Signal :=
  match evs with
  | [] => ([], match timeout with
      | some _ => .error (.exn "Server not responding!")
      | none => .error .blocked)
  | ev :: rest => (rest, readEvent timeout ev)

/-- `Peer.get_peers()`: only legal in `ONLINE`; sends `{'type':'listPeers'}`,
waits at most 2 time units for the reply, and requires it to be a `peers`
message (a reply without a `type` key would hit a `KeyError`). -/
def get_peers (p : Peer) (evs : List InEvent) :
    Peer × List InEvent × Except Err (List PeerInfo) :=
  if p.readyState ≠ PeerState.ONLINE then
    (p, evs, .error (.exn "Not in ONLINE state!"))
  else
    let p := pushSent p .listPeers
    match get_signal (some 2) evs with
    | (evs', .error e) => (p, evs', .error e)
    | (evs', .ok sig) =>
      match sig with
      | .peers ps => (p, evs', .ok ps)
      | .candidate _ _ _ => (p, evs', .error (.keyError "type"))
      | .untyped => (p, evs', .error (.keyError "type"))
      | _ => (p, evs', .error (.exn "Expected peers from server"))

/-- `Peer._negotiate(initiator)` up to the end of the SDP exchange: creates a
fresh `RTCPeerConnection`; the initiator creates the data channel, sets the
local offer, sends it and requires an `answer` in reply, while the responder
requires an `offer`, applies it, and creates and sends the local answer; both
then spawn the candidate-relay task (which exits cleanly when cancelled).
`localSdp` stands for the SDP the engine's `createOffer`/`createAnswer`
produces; media-track attachment is external and not observable here.  (The
subsequent wait for the `CONNECTING` state to end is event-driven: see
`on_open`, `on_datachannel` and `on_iceconnectionstatechange`.) -/
def negotiate (initiator : Bool) (localSdp : String) (p : Peer)
    (evs : List InEvent) : Peer × List InEvent × Except Err Unit :=
  let p := { p with pc := some true, pc_candidates := [] }
  if initiator then
    let p := { p with datachannel := some false }
    let p := { p with localDescription := some ("offer", localSdp) }
    let p := pushSent p (.sdp "offer" localSdp)
    match get_signal none evs with
    | (evs', .error e) => (p, evs', .error e)
    | (evs', .ok sig) =>
      match sig with
      | .answer sdp =>
          ({ p with remoteDescription := some ("answer", sdp),
                    handle_candidates_task := some (.running .cancelled) },
           evs', .ok ())
      | .candidate _ _ _ => (p, evs', .error (.keyError "type"))
      | .untyped => (p, evs', .error (.keyError "type"))
      | _ => (p, evs', .error (.exn "Expected answer from remote peer"))
  else
    match get_signal none evs with
    | (evs', .error e) => (p, evs', .error e)
    | (evs', .ok sig) =>
      match sig with
      | .offer sdp =>
          let p := { p with remoteDescription := some ("offer", sdp) }
          let p := { p with localDescription := some ("answer", localSdp) }
          let p := pushSent p (.sdp "answer" localSdp)
          ({ p with handle_candidates_task := some (.running .cancelled) },
           evs', .ok ())
      | .candidate _ _ _ => (p, evs', .error (.keyError "type"))
      | .untyped => (p, evs', .error (.keyError "type"))
      | _ => (p, evs', .error (.exn "Expected offer from remote peer"))

/-- `Peer.connect_to(remote_peer_id)`: only legal in `ONLINE`; sends a pair
request, waits at most 2 time units for a `paired` status (an `error` reply
re-raises its message, a non-status reply or an unpaired status fails),
enters `CONNECTING` and runs the negotiation as the answering side. -/
def connect_to (remote_peer_id : String) (localSdp : String) (p : Peer)
    (evs : List InEvent) : Peer × List InEvent × Except Err Unit :=
  if p.readyState ≠ PeerState.ONLINE then
    (p, evs, .error (.exn "Not in ONLINE state!"))
  else
    let p := pushSent p (.pair remote_peer_id)
    match get_signal (some 2) evs with
    | (evs', .error e) => (p, evs', .error e)
    | (evs', .ok sig) =>
      match sig with
      | .errorMsg m => (p, evs', .error (.exn m))
      | .status st _ =>
          match st with
          | none => (p, evs', .error (.keyError "status"))
          | some stv =>
              if stv ≠ "paired" then (p, evs', .error (.exn "Cannot pair with peer!"))
              else negotiate false localSdp (set_readyState p .CONNECTING) evs'
      | .candidate _ _ _ => (p, evs', .error (.keyError "type"))
      | .untyped => (p, evs', .error (.keyError "type"))
      | _ => (p, evs', .error (.exn "Expected status from server"))

/-- The receive loop inside `Peer.listen_connections`: discard (with a
warning) every message until a `paired` status arrives, then return its
`remotePeerId` field (`none` when the key is absent).  Reading
`signal['type']` on a message without a `type` key, or `signal['status']`
on a status message without a `status` key, raises `KeyError`. -/
def listen_loop : List InEvent → List InEvent × Except Err (Option String)
  | [] => ([], .error .blocked)
  | ev :: rest =>
      match readEvent none ev with
      | .error e => (rest, .error e)
      | .ok (.status none _) => (rest, .error (.keyError "status"))
      | .ok (.status (some stv) rid) =>
          if stv = "paired" then (rest, .ok rid) else listen_loop rest
      | .ok (.candidate _ _ _) => (rest, .error (.keyError "type"))
      | .ok .untyped => (rest, .error (.keyError "type"))
      | .ok _ => listen_loop rest

/-- `Peer.listen_connections()`: only legal in `ONLINE`; announces readiness,
enters `LISTENING`, blocks without a timeout until a `paired` status arrives,
enters `CONNECTING` and returns the remote peer id (a `paired` status lacking
`remotePeerId` raises a `KeyError` only after the state change). -/
def listen_connections (p : Peer) (evs : List InEvent) :
    Peer × List InEvent × Except Err String :=
  if p.readyState ≠ PeerState.ONLINE then
    (p, evs, .error (.exn "Not in ONLINE state!"))
  else
    let p := pushSent p .ready
    let p := set_readyState p .LISTENING
    match listen_loop evs with
    | (evs', .error e) => (p, evs', .error e)
    | (evs', .ok rid) =>
        let p := set_readyState p .CONNECTING
        match rid with
        | some r => (p, evs', .ok r)
        | none => (p, evs', .error (.keyError "remotePeerId"))

/-- `Peer.accept_connection()`: only legal in `CONNECTING`; runs the
negotiation as the offering side. -/
def accept_connection (localSdp : String) (p : Peer) (evs : List InEvent) :
    Peer × List InEvent × Except Err Unit :=
  if p.readyState ≠ PeerState.CONNECTING then
    (p, evs, .error (.exn "Not in CONNECTING state!"))
  else negotiate true localSdp p evs

/-- `Peer.send(data)`: only legal in `CONNECTED`; sends over the data channel
only when the channel reports `open`, silently dropping otherwise; a missing
channel object would hit an `AttributeError`. -/
def send (d : Json) (p : Peer) : Peer × Except Err Unit :=
  if p.readyState ≠ PeerState.CONNECTED then
    (p, .error (.exn "Not in CONNECTED state!"))
  else
    match p.datachannel with
    | none => (p, .error (.exn "AttributeError: _datachannel is None"))
    | some isOpen =>
        if isOpen then ({ p with dcSent := p.dcSent ++ [d] }, .ok ())
        else (p, .ok ())

/-- One poll iteration of `Peer.recv()`: only legal in `CONNECTED`; while the
single-slot inbox compares equal to `None` it sleeps and polls again (result
`none`); otherwise it empties the slot and returns its value. -/
def recv (p : Peer) : Peer × Except Err (Option Json) :=
  if p.readyState ≠ PeerState.CONNECTED then
    (p, .error (.exn "Not in CONNECTED state!"))
  else if p.data.isNull then (p, .ok none)
  else ({ p with data := .null }, .ok (some p.data))

/-- `Peer.add_data_handler(handler)`. -/
def add_data_handler (h : String) (p : Peer) : Peer :=
  { p with data_handlers := p.data_handlers ++ [h] }

/-- `Peer.remove_data_handler(handler)` (first occurrence, as `list.remove`). -/
def remove_data_handler (h : String) (p : Peer) : Peer :=
  { p with data_handlers := p.data_handlers.erase h }

/-- The data channel's `message` handler: a frame `json.loads` rejects raises
`TypeError`; otherwise the decoded value overwrites the single-slot inbox and
every registered handler is invoked with it, in registration order. -/
def on_message (raw : DataRaw) (p : Peer) : Peer × Except Err Unit :=
  match raw with
  | .invalid => (p, .error (.typeError "Received an invalid json message data"))
  | .json d =>
      ({ p with data := d,
                handlerCalls := p.handlerCalls ++ p.data_handlers.map (fun h => (h, d)) },
       .ok ())

/-- `add_datachannel_listeners`: registers the data channel's
message/close/error handlers. -/
def add_datachannel_listeners (p : Peer) : Peer :=
  { p with listenersAdded := true }

/-- The data channel's `close` handler: disconnect if still `CONNECTED`. -/
def on_close (p : Peer) : Peer × Except Err Unit :=
  if p.readyState = PeerState.CONNECTED then disconnect none p else (p, .ok ())

/-- The data channel's `error` handler: log and disconnect with the error as
cause. -/
def on_error (m : String) (p : Peer) : Peer × Except Err Unit :=
  disconnect (some m) p

/-- The `iceconnectionstatechange` handler: `failed` triggers `disconnect()`;
`completed` sets the peer `CONNECTED`; every other state is only logged. -/
def on_iceconnectionstatechange (st : String) (p : Peer) : Peer × Except Err Unit :=
  if st = "failed" then disconnect none p
  else if st = "completed" then (set_readyState p .CONNECTED, .ok ())
  else (p, .ok ())

/-- The initiator's data channel `open` handler: set `CONNECTED` and attach
the data-channel listeners. -/
def on_open (p : Peer) : Peer :=
  add_datachannel_listeners (set_readyState p .CONNECTED)

/-- The responder's `datachannel` handler: store the server-pushed channel,
set `CONNECTED` and attach the data-channel listeners. -/
def on_datachannel (p : Peer) : Peer :=
  add_datachannel_listeners (set_readyState { p with datachannel := some true } .CONNECTED)

/-- The `track` handler: a video track with a frame consumer configured
spawns the track-consumer task (`consumerTask` stands for the spawned
`feed_with` task); audio tracks and unconsumed video are ignored. -/
def on_track (kind : String) (consumerTask : AsyncTask) (p : Peer) : Peer :=
  if kind = "video" then
    if p.frame_consumer_feeder then { p with track_consumer_task := some consumerTask }
    else p
  else p

/-- Engine events delivered to the handlers registered by `_negotiate`. -/
inductive RtcEvent
  | iceStateChange (st : String)
  | dcOpen
  | dcArrived
  | dcMessage (raw : DataRaw)
  | dcClose
  | dcError (m : String)

/-- Dispatch of one engine event to the handlers the source registers: the
`open` handler exists only on the initiator's created channel, the
`datachannel` handler only on the responder's connection, and the
message/close/error handlers only once `add_datachannel_listeners` ran.
`dcOpen`/`dcArrived` mark the channel object open, as the engine does. -/
def handleRtcEvent (initiator : Bool) (ev : RtcEvent) (p : Peer) :
    Peer × Except Err Unit :=
  match ev with
  | .iceStateChange st => on_iceconnectionstatechange st p
  | .dcOpen =>
      if initiator then (on_open { p with datachannel := some true }, .ok ())
      else (p, .ok ())
  | .dcArrived =>
      if initiator then (p, .ok ()) else (on_datachannel p, .ok ())
  | .dcMessage raw => if p.listenersAdded then on_message raw p else (p, .ok ())
  | .dcClose => if p.listenersAdded then on_close p else (p, .ok ())
  | .dcError m => if p.listenersAdded then on_error m p else (p, .ok ())

/-- After the state leaves `CONNECTING`, `_negotiate` spawns the
remote-track-monitor task if a track-consumer task exists (`monitorTask`
stands for the spawned `_remote_track_monitor` task). -/
def negotiate_finish (monitorTask : AsyncTask) (p : Peer) : Peer :=
  if p.track_consumer_task.isSome then
    { p with remote_track_monitor_task := some monitorTask }
  else p

/-- The result of one iteration of a background loop: the loop's guard
failed and it exited, or the body ran and the loop continues, or the body
raised and the task faults. -/
inductive StepRes
  | exited
  | continued
  | failed (e : Err)
deriving DecidableEq, Repr

/-- One iteration of `Peer._handle_ice_candidates`: while `CONNECTING` or
`CONNECTED`, receive a signal (no timeout).  A message with a `type` key is
acted on only when it is an `unpaired` status and the peer is `CONNECTED`
(then `disconnect()` runs); a `status`-typed message missing its `status`
key raises `KeyError` at the `signal['status']` access; every other typed
message is silently ignored.  A message with a `candidate` key is parsed by
`fromSdp` (aioice `Candidate.from_sdp`) and handed to `addIceCandidate`
with every sub-field mapped.  A message with neither key raises.  -/
def handle_ice_candidates_step (fromSdp : String → AioiceCand) (p : Peer)
    (evs : List InEvent) : Peer × List InEvent × StepRes :=
  if p.readyState = PeerState.CONNECTING ∨ p.readyState = PeerState.CONNECTED then
    match get_signal none evs with
    | (evs', .error e) => (p, evs', .failed e)
    | (evs', .ok sig) =>
      match sig with
      | .status st _ =>
          match st with
          | none => (p, evs', .failed (.keyError "status"))
          | some stv =>
            if stv = "unpaired" then
              if p.readyState = PeerState.CONNECTED then
                match disconnect none p with
                | (q, .ok _) => (q, evs', .continued)
                | (q, .error e) => (q, evs', .failed e)
              else (p, evs', .continued)
            else (p, evs', .continued)
      | .peers _ => (p, evs', .continued)
      | .errorMsg _ => (p, evs', .continued)
      | .offer _ => (p, evs', .continued)
      | .answer _ => (p, evs', .continued)
      | .otherTyped _ => (p, evs', .continued)
      | .candidate line mIdx mid =>
          let c := fromSdp line
          let cand : RTCIceCandidate :=
            { component := c.component
              foundation := c.foundation
              ip := c.host
              port := c.port
              priority := c.priority
              protocol := c.transport
              relatedAddress := c.related_address
              relatedPort := c.related_port
              tcpType := c.tcptype
              type := c.type
              sdpMLineIndex := mIdx
              sdpMid := mid }
          ({ p with pc_candidates := p.pc_candidates ++ [cand] }, evs', .continued)
      | .untyped => (p, evs', .failed (.exn "Received an unexpected signal"))
  else (p, evs, .exited)

/-- `true` for signals that carry a `type` key whose value is not
`status` — the messages the candidate-relay loop falls through without
acting on or raising. -/
def typedNonStatus : Signal → Bool
  | .peers _ => true
  | .errorMsg _ => true
  | .offer _ => true
  | .answer _ => true
  | .otherTyped _ => true
  | _ => false

/-- One iteration of `Peer._remote_track_monitor`: while `CONNECTED`, if the
track-consumer task is done, inspect `task.exception()` — which raises
`CancelledError` when the task was cancelled — and on any non-cancellation
outcome log it and disconnect with it as cause (a normal return yields
`error = None`, so `disconnect(None)` escalates nothing). -/
def remote_track_monitor_step (p : Peer) : Peer × StepRes :=
  if p.readyState = PeerState.CONNECTED then
    match p.track_consumer_task with
    | some (.finished (.fault m)) =>
        match disconnect (some m) p with
        | (q, .ok _) => (q, .continued)
        | (q, .error e) => (q, .failed e)
    | some (.finished .cancelled) => (p, .failed .cancelledError)
    | some (.finished .ok) =>
        match disconnect none p with
        | (q, .ok _) => (q, .continued)
        | (q, .error e) => (q, .failed e)
    | _ => (p, .continued)
  else (p, .exited)

/-! ### Sample peers for concrete witnesses and counterexamples -/

/-- A peer that has opened its signaling connection and is `ONLINE`. -/
def basePeer : Peer :=
  { peer_init "ws://server" "media-server" (some "p1") none false with
    ws := some true, readyState := .ONLINE }

/-- A peer whose `close()` already ran. -/
def closedPeer : Peer :=
  { basePeer with readyState := .CLOSED, ws := some false }

/-- A peer in the middle of a connection attempt (`CONNECTING`): the peer
connection exists and the initiator's data channel was created but is not
yet open. -/
def connectingPeer : Peer :=
  { basePeer with
    readyState := .CONNECTING, pc := some true, datachannel := some false }

/-- A peer with an established connection (`CONNECTED`). -/
def connectedPeer : Peer :=
  { basePeer with
    readyState := .CONNECTED, pc := some true, datachannel := some true,
    listenersAdded := true, data := .num 5 }

/-- A `CONNECTED` peer with all three background tasks running. -/
def busyPeer : Peer :=
  { connectedPeer with
    track_consumer_task := some (.running .cancelled),
    handle_candidates_task := some (.running .cancelled),
    remote_track_monitor_task := some (.running .cancelled) }

/-- A fixed stand-in for aioice `Candidate.from_sdp`. -/
def fs0 : String → AioiceCand :=
  fun _ => ⟨1, "f", "10.0.0.1", 4242, 99, "udp", none, none, none, "host"⟩

/-! ### Helper lemmas -/

/-- Whatever `_cancel_task` does, afterwards the task is not running. -/
theorem cancelOptTask_fst_idle (o : Option AsyncTask) :
    optIdle (cancelOptTask o).1 = true := by
  cases o with
  | none => rfl
  | some t =>
    cases t with
    | finished r => cases r <;> rfl
    | running r => cases r <;> rfl

/-- The cancellation phase leaves every task slot idle when it returns
without raising, and it never touches the state, socket or connection. -/
theorem cancel_all_tasks_ok (p p' : Peer)
    (h : cancel_all_tasks p = (p', none)) :
    optIdle p'.track_consumer_task = true ∧
    optIdle p'.handle_candidates_task = true ∧
    optIdle p'.remote_track_monitor_task = true ∧
    p'.readyState = p.readyState ∧ p'.ws = p.ws ∧ p'.pc = p.pc := by
  unfold cancel_all_tasks at h
  rcases h1 : cancelOptTask p.track_consumer_task with ⟨t1, e1⟩
  rw [h1] at h
  have i1 : optIdle t1 = true := by
    have := cancelOptTask_fst_idle p.track_consumer_task
    rw [h1] at this; exact this
  cases e1 with
  | some e => simp at h
  | none =>
    simp only at h
    rcases h2 : cancelOptTask p.handle_candidates_task with ⟨t2, e2⟩
    rw [h2] at h
    have i2 : optIdle t2 = true := by
      have := cancelOptTask_fst_idle p.handle_candidates_task
      rw [h2] at this; exact this
    cases e2 with
    | some e => simp at h
    | none =>
      simp only at h
      rcases h3 : cancelOptTask p.remote_track_monitor_task with ⟨t3, e3⟩
      rw [h3] at h
      have i3 : optIdle t3 = true := by
        have := cancelOptTask_fst_idle p.remote_track_monitor_task
        rw [h3] at this; exact this
      cases e3 with
      | some e => simp at h
      | none =>
        simp only [Prod.mk.injEq, and_true] at h
        subst h
        exact ⟨i1, i2, i3, rfl, rfl, rfl⟩

/-- The closing phase, when it returns without raising and with no error
cause supplied, leaves the task slots untouched and puts the peer in
`ONLINE` exactly when the websocket was open, `CLOSED` otherwise. -/
theorem pc_ws_close_ok (q q' : Peer)
    (h : pc_ws_close none q = (q', Except.ok ())) :
    q'.track_consumer_task = q.track_consumer_task ∧
    q'.handle_candidates_task = q.handle_candidates_task ∧
    q'.remote_track_monitor_task = q.remote_track_monitor_task ∧
    q'.readyState = (if q.ws = some true then PeerState.ONLINE else PeerState.CLOSED) := by
  unfold pc_ws_close at h
  rcases hpc : q.pc with _ | b
  · rw [hpc] at h; simp at h
  · rw [hpc] at h
    simp only at h
    rcases hws : q.ws with _ | wsOpen
    · rw [show ({ q with pc := some false } : Peer).ws = q.ws from rfl, hws] at h
      simp at h
    · rw [show ({ q with pc := some false } : Peer).ws = q.ws from rfl, hws] at h
      simp only [Prod.mk.injEq] at h
      obtain ⟨hq, -⟩ := h
      subst hq
      cases wsOpen with
      | true =>
        refine ⟨rfl, rfl, rfl, ?_⟩
        simp [hws, set_readyState]
      | false =>
        refine ⟨rfl, rfl, rfl, ?_⟩
        simp [hws, closeBody, set_readyState]

/-! ### Claim C9 — connection URL composition -/

/-- C9, counterexample: with no id and a truthy key, `Peer.__init__` still
appends the key as a path segment — `<server>/<type>/<key>` — although the
claim says a key segment appears only nested inside an id segment. -/
theorem url_key_without_id :
    mkUrl "ws://server" "media-server" none (some "secretkey")
      = "ws://server/media-server/secretkey" ∧
    (peer_init "ws://server" "media-server" none (some "secretkey") false).url
      = "ws://server/media-server/secretkey" ∧
    truthy (none : Option String) = false := by
  refine ⟨rfl, rfl, rfl⟩

/-- C9, amended: the URL is `<server>/<peer-type>` with an id segment
appended when the id is truthy and a key segment appended when the key is
truthy — the two conditions are independent, so a key can appear without an
id. -/
theorem url_composition_amended (s ty : String) (id key : Option String)
    (hasFC : Bool) :
    (truthy id = true → truthy key = true →
        mkUrl s ty id key = s ++ "/" ++ ty ++ "/" ++ id.getD "" ++ "/" ++ key.getD "") ∧
    (truthy id = true → truthy key = false →
        mkUrl s ty id key = s ++ "/" ++ ty ++ "/" ++ id.getD "") ∧
    (truthy id = false → truthy key = true →
        mkUrl s ty id key = s ++ "/" ++ ty ++ "/" ++ key.getD "") ∧
    (truthy id = false → truthy key = false →
        mkUrl s ty id key = s ++ "/" ++ ty) ∧
    (peer_init s ty id key hasFC).url = mkUrl s ty id key := by
  refine ⟨?_, ?_, ?_, ?_, rfl⟩ <;> intro h1 h2 <;> simp [mkUrl, h1, h2]

/-- C9, witness for the amended theorem at a concrete input. -/
theorem url_composition_amended_instance :
    truthy (none : Option String) = false ∧ truthy (some "k") = true ∧
    mkUrl "ws://s" "t" none (some "k")
      = "ws://s" ++ "/" ++ "t" ++ "/" ++ (some "k").getD "" :=
  ⟨rfl, rfl, (url_composition_amended "ws://s" "t" none (some "k") false).2.2.1 rfl rfl⟩

/-! ### Claim C4 — cancellation helper (`Peer._cancel_task`) -/

/-- C4: evaluation of `Peer._cancel_task` on already-finished tasks.  The
fault and normal-return outcomes behave as the claim says (fault logged
without raising, normal return silent), but a task that finished *via
cancellation* makes `task.exception()` raise `CancelledError` (asyncio
semantics), so the helper raises instead of accepting it silently — the
`isinstance(error, CancelledError)` guard shows the intended behavior and
never sees the exception. -/
theorem cancel_task_finished_eval :
    (cancel_task (.finished .cancelled)).raised = some Err.cancelledError ∧
    (cancel_task (.finished (.fault "boom"))).raised = none ∧
    (cancel_task (.finished (.fault "boom"))).logged = true ∧
    (cancel_task (.finished .ok)).raised = none ∧
    (cancel_task (.finished .ok)).logged = false ∧
    (cancel_task (.finished .cancelled)).logged = false := by
  refine ⟨rfl, rfl, rfl, rfl, rfl, rfl⟩

/-! ### Claim C2 — state validation of public operations -/

/-- C2, counterexample: `Peer.open()` performs no state validation.  Called
on a peer already in `CLOSED` (outside `open`'s documented legal state set),
it does not fail with a state-violation error: it succeeds and moves the
peer to `ONLINE`. -/
theorem open_skips_state_validation :
    closedPeer.readyState = PeerState.CLOSED ∧
    (openPeer true closedPeer).2 = Except.ok () ∧
    (openPeer true closedPeer).1.readyState = PeerState.ONLINE := by
  refine ⟨rfl, rfl, rfl⟩

/-- C2, amended: every public lifecycle operation except `open` validates
the current state first and, when the state is illegal, raises a
state-violation error while leaving the peer (including its state) entirely
unchanged; `open` performs no validation and succeeds from any state,
entering `ONLINE`. -/
theorem state_validation_amended (p : Peer) (evs : List InEvent) (d : Json)
    (r sdp : String) :
    (p.readyState ≠ PeerState.ONLINE →
      get_peers p evs = (p, evs, .error (.exn "Not in ONLINE state!"))) ∧
    (p.readyState ≠ PeerState.ONLINE →
      connect_to r sdp p evs = (p, evs, .error (.exn "Not in ONLINE state!"))) ∧
    (p.readyState ≠ PeerState.ONLINE →
      listen_connections p evs = (p, evs, .error (.exn "Not in ONLINE state!"))) ∧
    (p.readyState ≠ PeerState.CONNECTING →
      accept_connection sdp p evs = (p, evs, .error (.exn "Not in CONNECTING state!"))) ∧
    (p.readyState ≠ PeerState.CONNECTED →
      send d p = (p, .error (.exn "Not in CONNECTED state!"))) ∧
    (p.readyState ≠ PeerState.CONNECTED →
      recv p = (p, .error (.exn "Not in CONNECTED state!"))) ∧
    ((openPeer true p).1.readyState = PeerState.ONLINE ∧
     (openPeer true p).2 = Except.ok ()) := by
  refine ⟨?_, ?_, ?_, ?_, ?_, ?_, rfl, rfl⟩ <;> intro h
  · simp [get_peers, h]
  · simp [connect_to, h]
  · simp [listen_connections, h]
  · simp [accept_connection, h]
  · simp [send, h]
  · simp [recv, h]

/-- C2, witness for the amended theorem at a concrete input. -/
theorem state_validation_amended_instance :
    closedPeer.readyState ≠ PeerState.ONLINE ∧
    get_peers closedPeer [] = (closedPeer, [], .error (.exn "Not in ONLINE state!")) :=
  ⟨by decide, (state_validation_amended closedPeer [] .null "a" "b").1 (by decide)⟩

/-! ### Claim C10 — `recv()` and JSON null -/

/-- C10: `recv()` can only ever return a value distinct from JSON null:
its poll loop runs while the single-slot inbox compares equal to `None`, so
a returned value never is null.  An inbound data-channel message decoding to
null is stored in the slot — leaving the slot equal to the empty slot — and
is still passed to every registered handler. -/
theorem recv_never_returns_null (p p' : Peer) (v : Json) :
    (recv p = (p', Except.ok (some v)) → v ≠ Json.null) ∧
    ((on_message (.json .null) p).1.data = Json.null ∧
     (on_message (.json .null) p).1.handlerCalls
        = p.handlerCalls ++ p.data_handlers.map (fun h => (h, Json.null)) ∧
     (on_message (.json .null) p).2 = Except.ok ()) := by
  refine ⟨?_, rfl, rfl, rfl⟩
  intro h
  unfold recv at h
  split at h
  · simp at h
  · split at h
    · simp at h
    · rename_i hnull
      simp only [Prod.mk.injEq, Except.ok.injEq, Option.some.injEq] at h
      obtain ⟨-, hv⟩ := h
      subst hv
      intro hn
      rw [hn] at hnull
      exact hnull rfl

/-- C10, witness: on a connected peer whose inbox holds `5`, `recv` returns
`5`, which is not null. -/
theorem recv_never_returns_null_instance : Json.num 5 ≠ Json.null :=
  (recv_never_returns_null connectedPeer { connectedPeer with data := Json.null }
    (Json.num 5)).1 rfl

/-! ### Claim C7 — idempotence and structure of `close()` -/

/-- C7: `close()` from `CLOSED` is a no-op without error; after any
successful `close()` a second `close()` is a no-op without error; and from
`CONNECTING`/`CONNECTED` it first runs the full disconnect protocol, then
closes the signaling transport and enters `CLOSED`. -/
theorem close_idempotent (p : Peer) :
    (p.readyState = PeerState.CLOSED → close p = (p, Except.ok ())) ∧
    (∀ p', close p = (p', Except.ok ()) → close p' = (p', Except.ok ())) ∧
    (p.readyState = PeerState.CONNECTING ∨ p.readyState = PeerState.CONNECTED →
      close p = match disconnect none p with
        | (q, .ok _) => (closeBody q, .ok ())
        | (q, .error e) => (q, .error e)) := by
  refine ⟨?_, ?_, ?_⟩
  · intro h
    simp [close, h]
  · intro p' h
    by_cases hc : p.readyState = PeerState.CLOSED
    · rw [close, if_pos hc] at h
      simp only [Prod.mk.injEq] at h
      obtain ⟨rfl, -⟩ := h
      simp [close, hc]
    · rw [close, if_neg hc] at h
      rcases hd : (if p.readyState = PeerState.CONNECTING ∨ p.readyState = PeerState.CONNECTED
          then disconnect none p else (p, Except.ok ())) with ⟨q, eq⟩
      rw [hd] at h
      cases eq with
      | error e => simp at h
      | ok u =>
        simp only [Prod.mk.injEq] at h
        obtain ⟨hq, -⟩ := h
        have hcl : p'.readyState = PeerState.CLOSED := by
          rw [← hq]; rfl
        simp [close, hcl]
  · intro h
    have hne : p.readyState ≠ PeerState.CLOSED := by
      rcases h with h | h <;> simp [h]
    rw [close, if_neg hne, if_pos h]

/-- C7, witness: both no-op halves at the concrete closed peer. -/
theorem close_idempotent_instance :
    closedPeer.readyState = PeerState.CLOSED ∧
    close closedPeer = (closedPeer, Except.ok ()) :=
  ⟨rfl, (close_idempotent closedPeer).1 rfl⟩

/-! ### Claim C8 — `getPeers` timeout behavior -/

/-- C8: `get_peers` is only legal in `ONLINE`; it sends `listPeers` and
waits at most 2 time units for a `peers` reply.  A reply within the deadline
succeeds; any event past the deadline (or no event at all) raises the
timeout error "Server not responding!"; a connection closing within the
deadline raises the distinct closed-connection error; any other valid reply
raises "Expected peers from server". -/
theorem get_peers_timeout_behavior (p : Peer) (evs rest : List InEvent)
    (ps : List PeerInfo) (t : ℚ) (raw : RawMsg)
    (hON : p.readyState = PeerState.ONLINE) :
    (¬ (2:ℚ) < t →
      get_peers p (.msg t (.json (.peers ps)) :: rest)
        = (pushSent p .listPeers, rest, .ok ps)) ∧
    ((2:ℚ) < t →
      (get_peers p (.msg t raw :: rest)).2.2 = .error (.exn "Server not responding!")) ∧
    ((2:ℚ) < t →
      (get_peers p (.closed t :: rest)).2.2 = .error (.exn "Server not responding!")) ∧
    (¬ (2:ℚ) < t →
      (get_peers p (.closed t :: rest)).2.2
        = .error (.exn "Websocket connection closed while waiting for a signal")) ∧
    (¬ (2:ℚ) < t →
      (get_peers p (.msg t (.json (.status (some "ok") none)) :: rest)).2.2
        = .error (.exn "Expected peers from server")) ∧
    ((get_peers p []).2.2 = .error (.exn "Server not responding!")) ∧
    (Err.exn "Server not responding!"
        ≠ Err.exn "Websocket connection closed while waiting for a signal") ∧
    (∀ q : Peer, q.readyState ≠ PeerState.ONLINE →
      get_peers q evs = (q, evs, .error (.exn "Not in ONLINE state!"))) := by
  refine ⟨?_, ?_, ?_, ?_, ?_, ?_, by simp, ?_⟩
  · intro h
    simp [get_peers, get_signal, readEvent, tmExceeds, hON, h]
  · intro h
    cases raw <;> simp [get_peers, get_signal, readEvent, tmExceeds, hON, h]
  · intro h
    simp [get_peers, get_signal, readEvent, tmExceeds, hON, h]
  · intro h
    simp [get_peers, get_signal, readEvent, tmExceeds, hON, h]
  · intro h
    simp [get_peers, get_signal, readEvent, tmExceeds, hON, h]
  · simp [get_peers, get_signal, hON]
  · intro q hq
    simp [get_peers, hq]

/-- C8, witness: a `peers` reply arriving after 1 time unit succeeds. -/
theorem get_peers_timeout_behavior_instance :
    basePeer.readyState = PeerState.ONLINE ∧ ¬ (2:ℚ) < 1 ∧
    get_peers basePeer [.msg 1 (.json (.peers []))]
      = (pushSent basePeer .listPeers, [], .ok []) :=
  ⟨rfl, by norm_num,
    (get_peers_timeout_behavior basePeer [] [] [] 1 .invalid rfl).1 (by norm_num)⟩

/-! ### Claim C1 — disconnect cleanup invariant -/

/-- C1: for a peer in `CONNECTING` or `CONNECTED`, when `disconnect()`
returns normally, none of the three background-task slots (track-consumer,
candidate-relay, remote-track-monitor) holds a still-running task, and the
state is `ONLINE` when the signaling transport is still open and `CLOSED`
otherwise. -/
theorem disconnect_cleanup_invariant (p p' : Peer)
    (h : p.readyState = PeerState.CONNECTING ∨ p.readyState = PeerState.CONNECTED)
    (hret : disconnect none p = (p', Except.ok ())) :
    optIdle p'.track_consumer_task = true ∧
    optIdle p'.handle_candidates_task = true ∧
    optIdle p'.remote_track_monitor_task = true ∧
    p'.readyState = (if p.ws = some true then PeerState.ONLINE else PeerState.CLOSED) := by
  rw [disconnect, if_pos h] at hret
  rcases hc : cancel_all_tasks (set_readyState p PeerState.DISCONNECTING) with ⟨p2, e2⟩
  rw [hc] at hret
  cases e2 with
  | some e => simp at hret
  | none =>
    simp only at hret
    obtain ⟨i1, i2, i3, hrs, hws, hpc⟩ :=
      cancel_all_tasks_ok (set_readyState p PeerState.DISCONNECTING) p2 hc
    obtain ⟨f1, f2, f3, fs⟩ := pc_ws_close_ok p2 p' hret
    refine ⟨?_, ?_, ?_, ?_⟩
    · rw [f1]; exact i1
    · rw [f2]; exact i2
    · rw [f3]; exact i3
    · rw [fs, hws]
      rfl

/-- C1, witness: disconnecting the connected sample peer (all three tasks
running, websocket open) leaves every task slot idle and the peer `ONLINE`. -/
theorem disconnect_cleanup_invariant_instance :
    (busyPeer.readyState = PeerState.CONNECTING ∨
     busyPeer.readyState = PeerState.CONNECTED) ∧
    (optIdle (disconnect none busyPeer).1.track_consumer_task = true ∧
     optIdle (disconnect none busyPeer).1.handle_candidates_task = true ∧
     optIdle (disconnect none busyPeer).1.remote_track_monitor_task = true ∧
     (disconnect none busyPeer).1.readyState
        = (if busyPeer.ws = some true then PeerState.ONLINE else PeerState.CLOSED)) :=
  ⟨Or.inr rfl,
    disconnect_cleanup_invariant busyPeer (disconnect none busyPeer).1
      (Or.inr rfl) rfl⟩

/-! ### Claim C3 — the trigger for entering `CONNECTED` -/

/-- The cancellation phase never changes the state, socket or connection,
whether or not it raises. -/
theorem cancel_all_tasks_fst_pres (p : Peer) :
    (cancel_all_tasks p).1.readyState = p.readyState ∧
    (cancel_all_tasks p).1.ws = p.ws ∧ (cancel_all_tasks p).1.pc = p.pc := by
  unfold cancel_all_tasks
  rcases h1 : cancelOptTask p.track_consumer_task with ⟨t1, e1⟩
  cases e1 with
  | some e => exact ⟨rfl, rfl, rfl⟩
  | none =>
    simp only
    rcases h2 : cancelOptTask p.handle_candidates_task with ⟨t2, e2⟩
    cases e2 with
    | some e => exact ⟨rfl, rfl, rfl⟩
    | none =>
      simp only
      rcases h3 : cancelOptTask p.remote_track_monitor_task with ⟨t3, e3⟩
      simp

/-- The closing phase leaves the state unchanged (when it raises on a
missing attribute) or sets it to `ONLINE` or `CLOSED` — never `CONNECTED`. -/
theorem pc_ws_close_fst_readyState (e : Option String) (q : Peer) :
    (pc_ws_close e q).1.readyState = q.readyState ∨
    (pc_ws_close e q).1.readyState = PeerState.ONLINE ∨
    (pc_ws_close e q).1.readyState = PeerState.CLOSED := by
  unfold pc_ws_close
  rcases hpc : q.pc with _ | b
  · left; rfl
  · simp only
    rcases hws : q.ws with _ | wsOpen
    · left; rfl
    · simp only
      cases wsOpen with
      | false =>
        cases e with
        | none => right; right; rfl
        | some m => right; right; rfl
      | true =>
        cases e with
        | none => right; left; rfl
        | some m => right; right; rfl

/-- `disconnect` invoked on a peer that is not `CONNECTED` never leaves it
`CONNECTED`. -/
theorem disconnect_readyState_ne_connected (e : Option String) (p : Peer)
    (h : p.readyState ≠ PeerState.CONNECTED) :
    (disconnect e p).1.readyState ≠ PeerState.CONNECTED := by
  unfold disconnect
  by_cases hg : p.readyState = PeerState.CONNECTING ∨ p.readyState = PeerState.CONNECTED
  · rw [if_pos hg]
    rcases hc : cancel_all_tasks (set_readyState p PeerState.DISCONNECTING) with ⟨p2, e2⟩
    have hpres := (cancel_all_tasks_fst_pres (set_readyState p PeerState.DISCONNECTING)).1
    rw [hc] at hpres
    have h2 : p2.readyState = PeerState.DISCONNECTING := hpres
    cases e2 with
    | some er =>
        simp only
        rw [h2]
        simp
    | none =>
        simp only
        rcases pc_ws_close_fst_readyState e p2 with hr | hr | hr <;> rw [hr]
        · rw [h2]; simp
        · simp
        · simp
  · rw [if_neg hg]
    exact h

/-- C3, counterexample: on the initiator side in `CONNECTING`, with the data
channel created but not yet open, the ICE connection state reaching
`completed` alone already moves the peer to `CONNECTED` — contradicting the
claim that only data-channel readiness triggers the transition. -/
theorem ice_completed_sets_connected :
    connectingPeer.readyState = PeerState.CONNECTING ∧
    connectingPeer.datachannel = some false ∧
    (handleRtcEvent true (.iceStateChange "completed") connectingPeer).2
      = Except.ok () ∧
    (handleRtcEvent true (.iceStateChange "completed") connectingPeer).1.readyState
      = PeerState.CONNECTED := by
  refine ⟨rfl, rfl, rfl, rfl⟩

/-- C3, amended: from `CONNECTING`, the peer transitions to `CONNECTED`
exactly when the ICE connection state reaches `completed` *or* the data
channel becomes ready (its `open` event on the initiator path, the arrival
of the server-pushed channel on the responder path) — whichever engine event
comes first. -/
theorem connected_trigger_amended (initiator : Bool) (ev : RtcEvent) (p : Peer)
    (h : p.readyState = PeerState.CONNECTING) :
    ((handleRtcEvent initiator ev p).1.readyState = PeerState.CONNECTED
      ↔ (ev = .iceStateChange "completed"
          ∨ (initiator = true ∧ ev = .dcOpen)
          ∨ (initiator = false ∧ ev = .dcArrived))) := by
  have hne : p.readyState ≠ PeerState.CONNECTED := by rw [h]; simp
  cases ev with
  | iceStateChange st =>
    by_cases hf : st = "failed"
    · have hd := disconnect_readyState_ne_connected none p hne
      simp [handleRtcEvent, on_iceconnectionstatechange, hf, hd]
    · by_cases hcm : st = "completed"
      · simp [handleRtcEvent, on_iceconnectionstatechange, hf, hcm, set_readyState]
      · simp [handleRtcEvent, on_iceconnectionstatechange, hf, hcm, h]
  | dcOpen =>
    cases initiator with
    | false => simp [handleRtcEvent, h]
    | true => simp [handleRtcEvent, on_open, add_datachannel_listeners, set_readyState]
  | dcArrived =>
    cases initiator with
    | false => simp [handleRtcEvent, on_datachannel, add_datachannel_listeners, set_readyState]
    | true => simp [handleRtcEvent, h]
  | dcMessage raw =>
    by_cases hl : p.listenersAdded <;>
      cases raw <;> simp [handleRtcEvent, on_message, hl, h]
  | dcClose =>
    by_cases hl : p.listenersAdded <;>
      simp [handleRtcEvent, on_close, hl, h, hne]
  | dcError m =>
    by_cases hl : p.listenersAdded
    · have hd := disconnect_readyState_ne_connected (some m) p hne
      simp [handleRtcEvent, on_error, hl, hd]
    · simp [handleRtcEvent, hl, h]

/-- C3, witness for the amended theorem: ICE `completed` on the responder
side moves the connecting sample peer to `CONNECTED`. -/
theorem connected_trigger_amended_instance :
    connectingPeer.readyState = PeerState.CONNECTING ∧
    (handleRtcEvent false (.iceStateChange "completed") connectingPeer).1.readyState
      = PeerState.CONNECTED :=
  ⟨rfl,
    (connected_trigger_amended false (.iceStateChange "completed") connectingPeer
      rfl).mpr (Or.inl rfl)⟩

/-! ### Claim C5 — candidate-relay task message handling -/

/-- C5, counterexample: the candidate-relay loop silently ignores messages
that carry a `type` key but are not an `unpaired` status — here a `peers`
message and an `error` message received while `CONNECTING` — instead of
raising a protocol error as the claim requires for "any other message". -/
theorem typed_signal_silently_ignored :
    handle_ice_candidates_step fs0 connectingPeer [.msg 0 (.json (.peers []))]
      = (connectingPeer, [], .continued) ∧
    handle_ice_candidates_step fs0 connectingPeer [.msg 0 (.json (.errorMsg "boom"))]
      = (connectingPeer, [], .continued) := by
  refine ⟨rfl, rfl⟩

/-- C5, amended: while `CONNECTING` or `CONNECTED`, the candidate-relay
task handles one signaling message as follows — an `unpaired` status while
`CONNECTED` triggers `disconnect()` (while merely `CONNECTING` it is
ignored); *every* message carrying a `type` key other than `status`
(peers, error, offer, answer, any other typed message) is silently
ignored, not raised; a `status`-typed message with any status other than
`unpaired` is likewise silently ignored; a `status`-typed message
*missing* its `status` key raises a `KeyError`; a candidate payload is
parsed into the engine's native candidate with every sub-field mapped
(component, foundation, address, port, priority, transport protocol,
related address, related port, tcp-type, candidate type, sdpMLineIndex,
sdpMid) and handed to the engine; a message with *neither* a `type` key
*nor* a `candidate` key raises a protocol error; and outside
`CONNECTING`/`CONNECTED` the loop exits. -/
theorem candidate_relay_amended (fromSdp : String → AioiceCand) (p q : Peer)
    (rest : List InEvent) (t : ℚ) (line mid stv : String) (mIdx : Int)
    (rid : Option String) (sig : Signal) :
    (p.readyState = PeerState.CONNECTED → disconnect none p = (q, Except.ok ()) →
      handle_ice_candidates_step fromSdp p
          (.msg t (.json (.status (some "unpaired") rid)) :: rest)
        = (q, rest, .continued)) ∧
    (p.readyState = PeerState.CONNECTING →
      handle_ice_candidates_step fromSdp p
          (.msg t (.json (.status (some "unpaired") rid)) :: rest)
        = (p, rest, .continued)) ∧
    (p.readyState = PeerState.CONNECTING ∨ p.readyState = PeerState.CONNECTED →
      typedNonStatus sig = true →
      handle_ice_candidates_step fromSdp p (.msg t (.json sig) :: rest)
        = (p, rest, .continued)) ∧
    (p.readyState = PeerState.CONNECTING ∨ p.readyState = PeerState.CONNECTED →
      stv ≠ "unpaired" →
      handle_ice_candidates_step fromSdp p
          (.msg t (.json (.status (some stv) rid)) :: rest)
        = (p, rest, .continued)) ∧
    (p.readyState = PeerState.CONNECTING ∨ p.readyState = PeerState.CONNECTED →
      handle_ice_candidates_step fromSdp p (.msg t (.json (.status none rid)) :: rest)
        = (p, rest, .failed (.keyError "status"))) ∧
    (p.readyState = PeerState.CONNECTING ∨ p.readyState = PeerState.CONNECTED →
      handle_ice_candidates_step fromSdp p (.msg t (.json (.candidate line mIdx mid)) :: rest)
        = ({ p with pc_candidates := p.pc_candidates ++
              [{ component := (fromSdp line).component
                 foundation := (fromSdp line).foundation
                 ip := (fromSdp line).host
                 port := (fromSdp line).port
                 priority := (fromSdp line).priority
                 protocol := (fromSdp line).transport
                 relatedAddress := (fromSdp line).related_address
                 relatedPort := (fromSdp line).related_port
                 tcpType := (fromSdp line).tcptype
                 type := (fromSdp line).type
                 sdpMLineIndex := mIdx
                 sdpMid := mid }] }, rest, .continued)) ∧
    (p.readyState = PeerState.CONNECTING ∨ p.readyState = PeerState.CONNECTED →
      handle_ice_candidates_step fromSdp p (.msg t (.json .untyped) :: rest)
        = (p, rest, .failed (.exn "Received an unexpected signal"))) ∧
    (p.readyState = PeerState.ONLINE →
      handle_ice_candidates_step fromSdp p rest = (p, rest, .exited)) := by
  refine ⟨?_, ?_, ?_, ?_, ?_, ?_, ?_, ?_⟩
  · intro h hd
    simp [handle_ice_candidates_step, get_signal, readEvent, tmExceeds, h, hd]
  · intro h
    simp [handle_ice_candidates_step, get_signal, readEvent, tmExceeds, h]
  · intro h hs
    cases sig <;> simp [typedNonStatus] at hs <;>
      simp [handle_ice_candidates_step, get_signal, readEvent, tmExceeds, h]
  · intro h hs
    simp [handle_ice_candidates_step, get_signal, readEvent, tmExceeds, h, hs]
  · intro h
    simp [handle_ice_candidates_step, get_signal, readEvent, tmExceeds, h]
  · intro h
    simp [handle_ice_candidates_step, get_signal, readEvent, tmExceeds, h]
  · intro h
    simp [handle_ice_candidates_step, get_signal, readEvent, tmExceeds, h]
  · intro h
    simp [handle_ice_candidates_step, h]

/-- C5, witness: an `unpaired` status received by the connected sample peer
makes the relay step run `disconnect()`. -/
theorem candidate_relay_amended_instance :
    connectedPeer.readyState = PeerState.CONNECTED ∧
    handle_ice_candidates_step fs0 connectedPeer
        [.msg 0 (.json (.status (some "unpaired") none))]
      = ((disconnect none connectedPeer).1, [], .continued) :=
  ⟨rfl,
    (candidate_relay_amended fs0 connectedPeer (disconnect none connectedPeer).1
      [] 0 "" "" "x" 0 none .untyped).1 rfl rfl⟩

/-! ### Claim C6 — role assignment in the SDP exchange -/

/-- C6: the side that called `connect_to` performs the answering half of the
SDP exchange (waits for an `offer`, applies it, creates and sends an
`answer`, creates no data channel of its own), while the side that listened
and called `accept_connection` performs the offering half (creates the data
channel, sends the `offer`, waits for an `answer`); on either side a typed
message that is not the required `offer`/`answer` is a fatal protocol error
for the attempt — not retried, surfaced to the caller. -/
theorem negotiation_role_assignment (pA pB : Peer)
    (offerSdp answerSdp remoteOffer rid : String)
    (t t1 t2 : ℚ) (rest restB : List InEvent)
    (hA : pA.readyState = PeerState.CONNECTING)
    (hB : pB.readyState = PeerState.ONLINE)
    (ht1 : ¬ (2:ℚ) < t1) :
    ((accept_connection offerSdp pA (.msg t (.json (.answer answerSdp)) :: rest)).1.sent
        = pA.sent ++ [OutMsg.sdp "offer" offerSdp] ∧
     (accept_connection offerSdp pA (.msg t (.json (.answer answerSdp)) :: rest)).1.datachannel
        = some false ∧
     (accept_connection offerSdp pA (.msg t (.json (.answer answerSdp)) :: rest)).1.remoteDescription
        = some ("answer", answerSdp) ∧
     (accept_connection offerSdp pA (.msg t (.json (.answer answerSdp)) :: rest)).2.2
        = Except.ok ()) ∧
    ((accept_connection offerSdp pA (.msg t (.json (.offer "x")) :: rest)).2.2
        = .error (.exn "Expected answer from remote peer")) ∧
    ((connect_to rid answerSdp pB
          (.msg t1 (.json (.status (some "paired") (some rid)))
            :: .msg t2 (.json (.offer remoteOffer)) :: restB)).1.sent
        = pB.sent ++ [OutMsg.pair rid, OutMsg.sdp "answer" answerSdp] ∧
     (connect_to rid answerSdp pB
          (.msg t1 (.json (.status (some "paired") (some rid)))
            :: .msg t2 (.json (.offer remoteOffer)) :: restB)).1.datachannel
        = pB.datachannel ∧
     (connect_to rid answerSdp pB
          (.msg t1 (.json (.status (some "paired") (some rid)))
            :: .msg t2 (.json (.offer remoteOffer)) :: restB)).1.remoteDescription
        = some ("offer", remoteOffer) ∧
     (connect_to rid answerSdp pB
          (.msg t1 (.json (.status (some "paired") (some rid)))
            :: .msg t2 (.json (.offer remoteOffer)) :: restB)).1.localDescription
        = some ("answer", answerSdp) ∧
     (connect_to rid answerSdp pB
          (.msg t1 (.json (.status (some "paired") (some rid)))
            :: .msg t2 (.json (.offer remoteOffer)) :: restB)).2.2
        = Except.ok ()) ∧
    ((connect_to rid answerSdp pB
          (.msg t1 (.json (.status (some "paired") (some rid)))
            :: .msg t2 (.json (.answer "y")) :: restB)).2.2
        = .error (.exn "Expected offer from remote peer")) := by
  refine ⟨⟨?_, ?_, ?_, ?_⟩, ?_, ⟨?_, ?_, ?_, ?_, ?_⟩, ?_⟩ <;>
    simp [accept_connection, connect_to, negotiate, get_signal, readEvent,
      tmExceeds, pushSent, set_readyState, hA, hB, ht1]

/-- C6, witness: the two halves at concrete peers and SDP values. -/
theorem negotiation_role_assignment_instance :
    connectingPeer.readyState = PeerState.CONNECTING ∧
    basePeer.readyState = PeerState.ONLINE ∧ ¬ (2:ℚ) < 1 ∧
    (accept_connection "oSdp" connectingPeer [.msg 0 (.json (.answer "aSdp2"))]).1.sent
      = connectingPeer.sent ++ [OutMsg.sdp "offer" "oSdp"] ∧
    (connect_to "peerB" "aSdp2" basePeer
        [.msg 1 (.json (.status (some "paired") (some "peerB"))),
         .msg 0 (.json (.offer "oSdp2"))]).1.sent
      = basePeer.sent ++ [OutMsg.pair "peerB", OutMsg.sdp "answer" "aSdp2"] :=
  ⟨rfl, rfl, by norm_num,
    (negotiation_role_assignment connectingPeer basePeer "oSdp" "aSdp2" "oSdp2"
      "peerB" 0 1 0 [] [] rfl rfl (by norm_num)).1.1,
    (negotiation_role_assignment connectingPeer basePeer "oSdp" "aSdp2" "oSdp2"
      "peerB" 0 1 0 [] [] rfl rfl (by norm_num)).2.2.1.1⟩
